import Mathlib

/-!
Verification development for the trust-manager Bundle validation webhook.

The data model follows `pkg/apis/trust/v1alpha1/types_bundle.go`, using the
single-key target shape (`*KeySelector` per target object together with
`AdditionalFormats`) that the webhook validator and the validation tests
actually exercise.  The webhook logic is translated from the `validator`
methods (`ValidateCreate`, `ValidateUpdate`, `ValidateDelete`, `validate`).
The external label-selector validator is out of scope and is modelled as a
parameter returning faults with relative paths, which the core merges after
prepending the path prefix.
-/

namespace TrustManager

/-- metav1.LabelSelector.  Its syntax validation is delegated to the external
selector validator, so only its shape matters here. -/
structure LabelSelector where
  matchLabels : List (String × String)
deriving DecidableEq

/-- One step of a field path (k8s `field.Path`): a named child or a numeric
index appended via `Index`. -/
inductive PathStep where
  | child (s : String)
  | index (i : Nat)
deriving DecidableEq

/-- A field path is the sequence of its steps. -/
abbrev FieldPath := List PathStep

/-- k8s `field.Error`: an error type, the field path, the bad value (empty for
`Forbidden` errors) and the detail message. -/
structure FieldError where
  errType : String
  path : FieldPath
  badValue : String
  detail : String
deriving DecidableEq

/-- `field.Invalid(path, value, detail)`. -/
def invalidErr (p : FieldPath) (v msg : String) : FieldError :=
  ⟨"Invalid", p, v, msg⟩

/-- `field.Forbidden(path, detail)`. -/
def forbiddenErr (p : FieldPath) (msg : String) : FieldError :=
  ⟨"Forbidden", p, "", msg⟩

/-- SourceObjectKeySelector (types_bundle.go): name or label selector plus a
key or includeAllKeys. -/
structure SourceObjectKeySelector where
  name : String
  selector : Option LabelSelector
  key : String
  includeAllKeys : Bool
deriving DecidableEq

/-- BundleSource (types_bundle.go): one contributor of trust material. -/
structure BundleSource where
  configMap : Option SourceObjectKeySelector
  secret : Option SourceObjectKeySelector
  inLine : Option String
  useDefaultCAs : Option Bool
deriving DecidableEq

/-- KeySelector: the key written in the target object.  This is the single-key
target shape read by the webhook validator (`target.Key`). -/
structure KeySelector where
  key : String
deriving DecidableEq

/-- JKS additional-format request (wraps a KeySelector). -/
structure JKS where
  keySelector : KeySelector
deriving DecidableEq

/-- PKCS12 additional-format request (wraps a KeySelector). -/
structure PKCS12 where
  keySelector : KeySelector
deriving DecidableEq

/-- AdditionalFormats: up to one JKS and one PKCS12 request. -/
structure AdditionalFormats where
  jks : Option JKS
  pkcs12 : Option PKCS12
deriving DecidableEq

/-- BundleTarget: optional configMap and secret targets, optional additional
formats, and a namespace selector. -/
structure BundleTarget where
  configMap : Option KeySelector
  secret : Option KeySelector
  additionalFormats : Option AdditionalFormats
  namespaceSelector : Option LabelSelector
deriving DecidableEq

/-- BundleSpec: the desired state (sources plus target). -/
structure BundleSpec where
  sources : List BundleSource
  target : BundleTarget
deriving DecidableEq

/-- A Bundle resource: its metadata name and its spec. -/
structure Bundle where
  name : String
  spec : BundleSpec
deriving DecidableEq

/-- The external label-selector validator
(`validation.ValidateLabelSelector`): returns faults carrying field-path
suffixes; the core prepends the path prefix before merging. -/
abbrev ExtValidator := Option LabelSelector → List FieldError

/-- Prepend a path prefix to every fault returned by the external validator. -/
def prependPath (p : FieldPath) (es : List FieldError) : List FieldError :=
  es.map fun e => ⟨e.errType, p ++ e.path, e.badValue, e.detail⟩

/-- `field.NewPath("spec")`. -/
def specPath : FieldPath := [PathStep.child "spec"]

/-- Per-source selector validation (validate, lines 86-102): when the source
has a configMap (resp. secret), validate its label selector at the nested
`selector` path. -/
def sourceSelectorFaults (ext : ExtValidator) (i : Nat) (s : BundleSource) :
    List FieldError :=
  (match s.configMap with
   | some cm =>
       prependPath (specPath ++ [PathStep.child "sources", PathStep.index i,
         PathStep.child "configMap", PathStep.child "selector"]) (ext cm.selector)
   | none => []) ++
  (match s.secret with
   | some sec =>
       prependPath (specPath ++ [PathStep.child "sources", PathStep.index i,
         PathStep.child "secret", PathStep.child "selector"]) (ext sec.selector)
   | none => [])

/-- The `for i, source := range bundle.Spec.Sources` loop of validate that
checks the per-source label selectors, carrying the running index. -/
def sourcesSelectorLoop (ext : ExtValidator) (i : Nat) :
    List BundleSource → List FieldError
  | [] => []
  | s :: rest => sourceSelectorFaults ext i s ++ sourcesSelectorLoop ext (i + 1) rest

/-- `fmt.Sprintf("[%d]", i)`. -/
def bracket (i : Nat) : String := "[" ++ toString i ++ "]"

/-- The Forbidden fault emitted when a configMap source names the bundle
itself with the target configMap key (validate, line 108). -/
def selfRefCMFault (i : Nat) (nm k : String) : FieldError :=
  forbiddenErr (specPath ++ [PathStep.child "sources", PathStep.child (bracket i),
    PathStep.child "configMap", PathStep.child nm, PathStep.child k])
    "cannot define the same source as target"

/-- The Forbidden fault emitted when a secret source names the bundle itself
with the target secret key (validate, line 117). -/
def selfRefSecretFault (i : Nat) (nm k : String) : FieldError :=
  forbiddenErr (specPath ++ [PathStep.child "sources", PathStep.child (bracket i),
    PathStep.child "secret", PathStep.child nm, PathStep.child k])
    "cannot define the same source as target"

/-- The source loop of the target-configMap self-reference check (validate,
lines 104-111). -/
def selfRefCMLoop (bundleName targetKey : String) (i : Nat) :
    List BundleSource → List FieldError
  | [] => []
  | s :: rest =>
    (match s.configMap with
     | some cm =>
         if cm.name = bundleName ∧ cm.key = targetKey then
           [selfRefCMFault i cm.name cm.key]
         else []
     | none => []) ++ selfRefCMLoop bundleName targetKey (i + 1) rest

/-- The source loop of the target-secret self-reference check (validate,
lines 113-120). -/
def selfRefSecretLoop (bundleName targetKey : String) (i : Nat) :
    List BundleSource → List FieldError
  | [] => []
  | s :: rest =>
    (match s.secret with
     | some sec =>
         if sec.name = bundleName ∧ sec.key = targetKey then
           [selfRefSecretFault i sec.name sec.key]
         else []
     | none => []) ++ selfRefSecretLoop bundleName targetKey (i + 1) rest

/-- Self-reference faults for the configMap target: run only when
`bundle.Spec.Target.ConfigMap != nil`. -/
def selfRefCMFaults (b : Bundle) : List FieldError :=
  match b.spec.target.configMap with
  | some tgt => selfRefCMLoop b.name tgt.key 0 b.spec.sources
  | none => []

/-- Self-reference faults for the secret target: run only when
`bundle.Spec.Target.Secret != nil`. -/
def selfRefSecretFaults (b : Bundle) : List FieldError :=
  match b.spec.target.secret with
  | some tgt => selfRefSecretLoop b.name tgt.key 0 b.spec.sources
  | none => []

/-- Namespace-selector validation (validate, lines 122-123). -/
def nsSelectorFaults (ext : ExtValidator) (b : Bundle) : List FieldError :=
  prependPath (specPath ++ [PathStep.child "target", PathStep.child "namespaceSelector"])
    (ext b.spec.target.namespaceSelector)

/-- The admission result: warnings plus the aggregated fault list (an empty
list is `ToAggregate`'s nil error, i.e. admission). -/
structure AdmissionResult where
  warnings : List String
  faults : List FieldError
deriving DecidableEq

/-- `validator.validate` (part_000, lines 73-127): accumulate per-source
selector faults, configMap self-reference faults, secret self-reference
faults, then namespace-selector faults; warnings stay empty. -/
def validate (ext : ExtValidator) (b : Bundle) : AdmissionResult :=
  ⟨[], sourcesSelectorLoop ext 0 b.spec.sources ++ selfRefCMFaults b ++
    selfRefSecretFaults b ++ nsSelectorFaults ext b⟩

/-- `validator.ValidateCreate` (part_000, lines 37-39). -/
def ValidateCreate (ext : ExtValidator) (b : Bundle) : AdmissionResult :=
  validate ext b

/-- The fault returned when an update removes the configMap target
(part_000, line 57). -/
def cmRemovalFault : FieldError :=
  invalidErr (specPath ++ [PathStep.child "target", PathStep.child "configmap"]) ""
    "target configMap removal is not allowed"

/-- The fault returned when an update removes the secret target
(part_000, line 62). -/
def secretRemovalFault : FieldError :=
  invalidErr (specPath ++ [PathStep.child "target", PathStep.child "secret"]) ""
    "target secret removal is not allowed"

/-- `validator.ValidateUpdate` (part_000, lines 41-66): reject configMap
target removal, then secret target removal, else validate the new bundle. -/
def ValidateUpdate (ext : ExtValidator) (oldB newB : Bundle) : AdmissionResult :=
  if oldB.spec.target.configMap.isSome && newB.spec.target.configMap.isNone then
    ⟨[], [cmRemovalFault]⟩
  else if oldB.spec.target.secret.isSome && newB.spec.target.secret.isNone then
    ⟨[], [secretRemovalFault]⟩
  else validate ext newB

/-- `validator.ValidateDelete` (part_000, lines 68-71): always allow deletes. -/
def ValidateDelete (_b : Bundle) : AdmissionResult := ⟨[], []⟩

/-- `field.NewPath("spec").Child("target")`. -/
def targetPath : FieldPath := specPath ++ [PathStep.child "target"]

/-- Modelled from the spec: the per-source mutual-exclusion count.  The rule
"must define exactly one source" is enforced by a validation rule on
BundleSource that is not part of the excerpt (only its integration test is);
modelled from spec section 4.1 step 1: count how many of
{configMap set, secret set, inLine set, useDefaultCAs == true} are populated
(an explicit `false` for useDefaultCAs counts as not set). -/
def sourceKindCount (s : BundleSource) : Nat :=
  (if s.configMap.isSome then 1 else 0) +
  (if s.secret.isSome then 1 else 0) +
  (if s.inLine.isSome then 1 else 0) +
  (if s.useDefaultCAs = some true then 1 else 0)

/-- The fault "must define exactly one source" at `spec.sources[i]`. -/
def exactlyOneSourceFault (i : Nat) : FieldError :=
  invalidErr (specPath ++ [PathStep.child "sources", PathStep.index i]) "object"
    "must define exactly one source"

/-- Modelled from the spec: the "must define exactly one source" rule applied
to the source at index `i` (spec section 4.1 step 1; code not under the
excerpt, only its integration test). -/
def checkExactlyOneSource (i : Nat) (s : BundleSource) : List FieldError :=
  if sourceKindCount s = 1 then [] else [exactlyOneSourceFault i]

/-- Exactly one of four propositions holds. -/
def ExactlyOne (a b c d : Prop) : Prop :=
  (a ∧ ¬b ∧ ¬c ∧ ¬d) ∨ (¬a ∧ b ∧ ¬c ∧ ¬d) ∨
  (¬a ∧ ¬b ∧ c ∧ ¬d) ∨ (¬a ∧ ¬b ∧ ¬c ∧ d)

/-- Exactly one of the four source kinds is set, where `useDefaultCAs`
counts as set only when it is explicitly `true`. -/
def ExactlyOneSourceSet (s : BundleSource) : Prop :=
  ExactlyOne (s.configMap.isSome = true) (s.secret.isSome = true)
    (s.inLine.isSome = true) (s.useDefaultCAs = some true)

/-- The primary target keys in use (spec section 4.2 step 3). -/
def primaryKeys (t : BundleTarget) : List String :=
  (match t.configMap with | some ks => [ks.key] | none => []) ++
  (match t.secret with | some ks => [ks.key] | none => [])

/-- The JKS additional-format key, when requested. -/
def jksKey (t : BundleTarget) : Option String :=
  t.additionalFormats.bind fun af => af.jks.map fun j => j.keySelector.key

/-- The PKCS12 additional-format key, when requested. -/
def pkcs12Key (t : BundleTarget) : Option String :=
  t.additionalFormats.bind fun af => af.pkcs12.map fun p => p.keySelector.key

/-- The additional-format keys in use (spec section 4.2 step 4). -/
def additionalFormatKeys (t : BundleTarget) : List String :=
  (match jksKey t with | some k => [k] | none => []) ++
  (match pkcs12Key t with | some k => [k] | none => [])

/-- The fault "additional format keys must be different from configMap/secret
keys" at `spec.target`. -/
def diffFault : FieldError :=
  invalidErr targetPath "object"
    "additional format keys must be different from configMap/secret keys"

/-- The fault "additional format keys must be unique" at `spec.target`. -/
def uniqueFault : FieldError :=
  invalidErr targetPath "object" "additional format keys must be unique"

/-- Modelled from the spec: the additional-format key checks on a
BundleTarget (spec section 4.2 steps 5-6; the validation rules themselves are
not part of the excerpt, only their integration tests).  Step 5: if any
additional-format key equals any primary key, emit the difference fault.
Step 6: if both additional-format keys are present and equal, emit the
uniqueness fault. -/
def additionalFormatFaults (t : BundleTarget) : List FieldError :=
  (if ∃ k ∈ additionalFormatKeys t, k ∈ primaryKeys t then [diffFault] else []) ++
  (match jksKey t, pkcs12Key t with
   | some j, some p => if j = p then [uniqueFault] else []
   | _, _ => [])

/-- The fault "must define at least one target configMap/secret" at
`spec.target`. -/
def targetPresenceFault : FieldError :=
  invalidErr targetPath "object" "must define at least one target configMap/secret"

/-- Modelled from the spec: the target presence check (spec section 4.2
step 1; the validation rule is not part of the excerpt, only its integration
test): if neither configMap nor secret is set, emit the presence fault. -/
def targetPresenceFaults (t : BundleTarget) : List FieldError :=
  if t.configMap = none ∧ t.secret = none then [targetPresenceFault] else []

/-- The trivial external validator: every selector passes.  Used to
instantiate witnesses on concrete inputs. -/
def extNil : ExtValidator := fun _ => []

/-- A concrete bundle whose target sets both configMap and secret. -/
def oldBoth : Bundle :=
  ⟨"bundle-a", ⟨[⟨none, none, some "pem", none⟩],
    ⟨some ⟨"ca.crt"⟩, some ⟨"ca.crt"⟩, none, some ⟨[]⟩⟩⟩⟩

/-- A concrete bundle whose target sets neither configMap nor secret. -/
def newNone : Bundle :=
  ⟨"bundle-a", ⟨[⟨none, none, some "pem", none⟩],
    ⟨none, none, none, some ⟨[]⟩⟩⟩⟩

/-- A concrete bundle with an empty sources sequence. -/
def emptySourcesBundle : Bundle :=
  ⟨"bundle-b", ⟨[], ⟨some ⟨"ca.crt"⟩, none, none, some ⟨[]⟩⟩⟩⟩

/-- A concrete bundle whose first source names the bundle itself with the
target configMap key. -/
def selfRefBundle : Bundle :=
  ⟨"bundle-c", ⟨[⟨some ⟨"bundle-c", none, "ca.crt", false⟩, none, none, none⟩],
    ⟨some ⟨"ca.crt"⟩, none, none, some ⟨[]⟩⟩⟩⟩

/-- A second bundle with both targets set but different name, sources and
keys, agreeing with `oldBoth` only on which target fields are set. -/
def oldBothAlt : Bundle :=
  ⟨"bundle-z", ⟨[⟨some ⟨"other", none, "k", false⟩, none, none, none⟩],
    ⟨some ⟨"tls.crt"⟩, some ⟨"tls.key"⟩, none, none⟩⟩⟩

/-- A concrete target whose JKS additional-format key clashes with the
configMap key. -/
def clashTarget : BundleTarget :=
  ⟨some ⟨"c"⟩, some ⟨"s"⟩, some ⟨some ⟨⟨"c"⟩⟩, none⟩, none⟩

/-- Claim C8: ValidateDelete returns no warnings and no faults for every
bundle: deletion of the whole resource is always admitted unconditionally. -/
theorem validateDelete_always_admits (b : Bundle) : ValidateDelete b = ⟨[], []⟩ :=
  rfl

/-- Claim C6: validation is deterministic and stateless: two runs of
`validate` on equal inputs (same external validator, equal bundles) return
identical results, the fault lists included; there is no hidden state, as
`validate` is a function of its arguments alone. -/
theorem validate_deterministic (ext : ExtValidator) (b₁ b₂ : Bundle)
    (h : b₁ = b₂) : validate ext b₁ = validate ext b₂ := by
  rw [h]

/-- Witness for C6 at a concrete bundle. -/
theorem validate_deterministic_witness :
    validate extNil selfRefBundle = validate extNil selfRefBundle :=
  validate_deterministic extNil selfRefBundle selfRefBundle rfl

/-- Claim C7: on a bundle whose sources sequence is empty, `validate`
terminates normally and returns a result: no source loop contributes, and
the result is exactly the namespace-selector faults with empty warnings. -/
theorem validate_empty_sources_total (ext : ExtValidator) (b : Bundle)
    (h : b.spec.sources = []) :
    validate ext b = ⟨[], nsSelectorFaults ext b⟩ := by
  have hcm : selfRefCMFaults b = [] := by
    cases hc : b.spec.target.configMap <;>
      simp [selfRefCMFaults, hc, h, selfRefCMLoop]
  have hsec : selfRefSecretFaults b = [] := by
    cases hc : b.spec.target.secret <;>
      simp [selfRefSecretFaults, hc, h, selfRefSecretLoop]
  simp [validate, h, sourcesSelectorLoop, hcm, hsec]

/-- Witness for C7 at a concrete bundle with zero sources. -/
theorem validate_empty_sources_witness :
    validate extNil emptySourcesBundle =
      ⟨[], nsSelectorFaults extNil emptySourcesBundle⟩ :=
  validate_empty_sources_total extNil emptySourcesBundle rfl

/-- Claim C9: when the previous bundle has both configMap and secret targets
set and the proposed bundle has both nil, ValidateUpdate returns exactly the
configMap-removal fault, and the secret-removal fault is never reported: the
configMap check runs first and short-circuits. -/
theorem both_removed_reports_configmap_only (ext : ExtValidator)
    (oldB newB : Bundle)
    (h1 : oldB.spec.target.configMap.isSome = true)
    (_h2 : oldB.spec.target.secret.isSome = true)
    (h3 : newB.spec.target.configMap = none)
    (_h4 : newB.spec.target.secret = none) :
    (ValidateUpdate ext oldB newB).faults = [cmRemovalFault] ∧
    secretRemovalFault ∉ (ValidateUpdate ext oldB newB).faults := by
  have hc : (oldB.spec.target.configMap.isSome &&
      newB.spec.target.configMap.isNone) = true := by
    simp [h1, h3]
  refine ⟨by simp [ValidateUpdate, hc], ?_⟩
  simp [ValidateUpdate, hc, cmRemovalFault, secretRemovalFault, invalidErr]

/-- Witness for C9 at concrete bundles. -/
theorem both_removed_witness :
    (ValidateUpdate extNil oldBoth newNone).faults = [cmRemovalFault] ∧
    secretRemovalFault ∉ (ValidateUpdate extNil oldBoth newNone).faults :=
  both_removed_reports_configmap_only extNil oldBoth newNone rfl rfl rfl rfl

/-- Claim C10: the previous bundle influences ValidateUpdate only through
whether its configMap and secret targets are set: two previous bundles
agreeing on those two bits yield identical results for every proposed
bundle. -/
theorem update_depends_only_on_old_target_presence (ext : ExtValidator)
    (newB old₁ old₂ : Bundle)
    (hc : old₁.spec.target.configMap.isSome = old₂.spec.target.configMap.isSome)
    (hs : old₁.spec.target.secret.isSome = old₂.spec.target.secret.isSome) :
    ValidateUpdate ext old₁ newB = ValidateUpdate ext old₂ newB := by
  simp only [ValidateUpdate, hc, hs]

/-- Witness for C10: two previous bundles differing in name, sources and
target keys but agreeing on target presence give the same decision. -/
theorem update_old_presence_witness :
    ValidateUpdate extNil oldBoth newNone = ValidateUpdate extNil oldBothAlt newNone :=
  update_depends_only_on_old_target_presence extNil newNone oldBoth oldBothAlt rfl rfl

/-- Claim C1 counterexample: on an update removing both targets at once the
secret-removal rule does not fire as stated: the previous bundle has
target.secret set, the proposed bundle has it nil, yet the result carries
only the configMap-removal fault and no fault with the secret-removal
message. -/
theorem secret_removal_rule_not_symmetric :
    oldBoth.spec.target.secret.isSome = true ∧
    newNone.spec.target.secret = none ∧
    (ValidateUpdate extNil oldBoth newNone).faults = [cmRemovalFault] ∧
    secretRemovalFault ∉ (ValidateUpdate extNil oldBoth newNone).faults := by
  refine ⟨rfl, rfl, rfl, ?_⟩
  decide

/-- Claim C1 amended: a configMap target removal is always rejected
immediately with the configMap fault alone (no further checks run); the
symmetric secret rule holds whenever the configMap rule did not fire, since
the configMap check runs first. -/
theorem target_removal_guard (ext : ExtValidator) (oldB newB : Bundle) :
    ((oldB.spec.target.configMap.isSome &&
        newB.spec.target.configMap.isNone) = true →
      ValidateUpdate ext oldB newB = ⟨[], [cmRemovalFault]⟩) ∧
    ((oldB.spec.target.configMap.isSome &&
        newB.spec.target.configMap.isNone) = false →
     (oldB.spec.target.secret.isSome &&
        newB.spec.target.secret.isNone) = true →
      ValidateUpdate ext oldB newB = ⟨[], [secretRemovalFault]⟩) := by
  constructor
  · intro h
    simp [ValidateUpdate, h]
  · intro h1 h2
    simp [ValidateUpdate, h1, h2]

/-- Witness for amended C1 at concrete bundles. -/
theorem target_removal_guard_witness :
    ValidateUpdate extNil oldBoth newNone = ⟨[], [cmRemovalFault]⟩ :=
  (target_removal_guard extNil oldBoth newNone).1 rfl

/-- Claim C5: when neither configMap nor secret target is set, the modelled
target presence check emits exactly the presence fault at the target path;
when at least one is set, it emits nothing. -/
theorem target_presence_check (t : BundleTarget) :
    (t.configMap = none ∧ t.secret = none →
      targetPresenceFaults t = [targetPresenceFault]) ∧
    (t.configMap.isSome = true ∨ t.secret.isSome = true →
      targetPresenceFaults t = []) := by
  constructor
  · intro h
    unfold targetPresenceFaults
    rw [if_pos h]
  · intro h
    unfold targetPresenceFaults
    rw [if_neg]
    intro hc
    rcases h with h | h
    · rw [hc.1] at h
      simp at h
    · rw [hc.2] at h
      simp at h

/-- Witness for C5 at a concrete target with neither configMap nor secret. -/
theorem target_presence_check_witness :
    targetPresenceFaults ⟨none, none, none, none⟩ = [targetPresenceFault] :=
  (target_presence_check ⟨none, none, none, none⟩).1 ⟨rfl, rfl⟩

/-- The mutual-exclusion count equals one exactly when exactly one of the
four source kinds is set. -/
theorem sourceKindCount_eq_one_iff (s : BundleSource) :
    sourceKindCount s = 1 ↔ ExactlyOneSourceSet s := by
  rcases s with ⟨cm, sec, il, ud⟩
  rcases cm with _ | cm <;> rcases sec with _ | sec <;> rcases il with _ | il <;>
    rcases ud with _ | (_ | _) <;>
    simp [sourceKindCount, ExactlyOneSourceSet, ExactlyOne]

/-- Claim C3: the modelled per-source mutual-exclusion check is silent
exactly when exactly one of {configMap, secret, inLine, useDefaultCAs=true}
is set, and otherwise emits exactly one "must define exactly one source"
fault at the source's index; in particular a source carrying only an
explicit useDefaultCAs=false receives the fault. -/
theorem exactly_one_source_check (i : Nat) (s : BundleSource) :
    (ExactlyOneSourceSet s → checkExactlyOneSource i s = []) ∧
    (¬ ExactlyOneSourceSet s →
      checkExactlyOneSource i s = [exactlyOneSourceFault i]) ∧
    checkExactlyOneSource i ⟨none, none, none, some false⟩ =
      [exactlyOneSourceFault i] := by
  refine ⟨?_, ?_, rfl⟩
  · intro h
    unfold checkExactlyOneSource
    rw [if_pos ((sourceKindCount_eq_one_iff s).mpr h)]
  · intro h
    unfold checkExactlyOneSource
    rw [if_neg fun hc => h ((sourceKindCount_eq_one_iff s).mp hc)]

/-- Witness for C3: a source with only useDefaultCAs=false is faulted. -/
theorem exactly_one_source_check_witness :
    checkExactlyOneSource 0 ⟨none, none, none, some false⟩ =
      [exactlyOneSourceFault 0] :=
  (exactly_one_source_check 0 ⟨none, none, none, some false⟩).2.1
    (by simp [ExactlyOneSourceSet, ExactlyOne])

/-- Claim C4: in the modelled additional-format key checks, an
additional-format key equal to a primary configMap/secret key yields the
difference fault; JKS and PKCS12 keys both present and equal yield the
uniqueness fault; and when every additional-format key differs from every
primary key and the two additional-format keys differ, no fault is
emitted. -/
theorem additional_format_keys_check (t : BundleTarget) :
    ((∃ k ∈ additionalFormatKeys t, k ∈ primaryKeys t) →
      diffFault ∈ additionalFormatFaults t) ∧
    (∀ j p, jksKey t = some j → pkcs12Key t = some p → j = p →
      uniqueFault ∈ additionalFormatFaults t) ∧
    ((∀ k ∈ additionalFormatKeys t, k ∉ primaryKeys t) →
     (∀ j p, jksKey t = some j → pkcs12Key t = some p → j ≠ p) →
      additionalFormatFaults t = []) := by
  refine ⟨?_, ?_, ?_⟩
  · intro h
    unfold additionalFormatFaults
    rw [if_pos h]
    simp
  · intro j p hj hp he
    unfold additionalFormatFaults
    rw [hj, hp]
    refine List.mem_append_right _ ?_
    simp [he]
  · intro h1 h2
    unfold additionalFormatFaults
    rw [if_neg fun hex => by
      rcases hex with ⟨k, hk, hkp⟩
      exact h1 k hk hkp]
    cases hj : jksKey t with
    | none => cases hp : pkcs12Key t <;> rfl
    | some j =>
      cases hp : pkcs12Key t with
      | none => rfl
      | some p => simp [if_neg (h2 j p hj hp)]

/-- Witness for C4: the concrete clash target (JKS key equals configMap key)
receives the difference fault. -/
theorem additional_format_keys_check_witness :
    diffFault ∈ additionalFormatFaults clashTarget :=
  (additional_format_keys_check clashTarget).1 (by decide)

/-- If source `j` has a configMap naming the bundle with the target key, the
configMap self-reference loop started at `n` contains the fault for index
`n + j`. -/
theorem selfRefCMLoop_mem_of (bn tk : String) :
    ∀ (srcs : List BundleSource) (n j : Nat) (s : BundleSource)
      (cm : SourceObjectKeySelector),
      srcs.get? j = some s → s.configMap = some cm →
      cm.name = bn → cm.key = tk →
      selfRefCMFault (n + j) cm.name cm.key ∈ selfRefCMLoop bn tk n srcs := by
  intro srcs
  induction srcs with
  | nil =>
    intro n j s cm hget
    simp at hget
  | cons hd tl ih =>
    intro n j s cm hget hcm hname hkey
    cases j with
    | zero =>
      have hhd : hd = s := by simpa using hget
      have hcm' : hd.configMap = some cm := by rw [hhd]; exact hcm
      simp only [selfRefCMLoop, hcm']
      rw [if_pos ⟨hname, hkey⟩]
      simp
    | succ j' =>
      have hget' : tl.get? j' = some s := by simpa using hget
      have hmem := ih (n + 1) j' s cm hget' hcm hname hkey
      simp only [selfRefCMLoop]
      refine List.mem_append_right _ ?_
      have harr : n + (j' + 1) = n + 1 + j' := by omega
      rw [harr]
      exact hmem

/-- If source `j` has a secret naming the bundle with the target key, the
secret self-reference loop started at `n` contains the fault for index
`n + j`. -/
theorem selfRefSecretLoop_mem_of (bn tk : String) :
    ∀ (srcs : List BundleSource) (n j : Nat) (s : BundleSource)
      (sec : SourceObjectKeySelector),
      srcs.get? j = some s → s.secret = some sec →
      sec.name = bn → sec.key = tk →
      selfRefSecretFault (n + j) sec.name sec.key ∈
        selfRefSecretLoop bn tk n srcs := by
  intro srcs
  induction srcs with
  | nil =>
    intro n j s sec hget
    simp at hget
  | cons hd tl ih =>
    intro n j s sec hget hsec hname hkey
    cases j with
    | zero =>
      have hhd : hd = s := by simpa using hget
      have hsec' : hd.secret = some sec := by rw [hhd]; exact hsec
      simp only [selfRefSecretLoop, hsec']
      rw [if_pos ⟨hname, hkey⟩]
      simp
    | succ j' =>
      have hget' : tl.get? j' = some s := by simpa using hget
      have hmem := ih (n + 1) j' s sec hget' hsec hname hkey
      simp only [selfRefSecretLoop]
      refine List.mem_append_right _ ?_
      have harr : n + (j' + 1) = n + 1 + j' := by omega
      rw [harr]
      exact hmem

/-- Every fault of the configMap self-reference loop is a configMap
self-reference fault carrying the target key. -/
theorem selfRefCMLoop_shape (bn tk : String) :
    ∀ (srcs : List BundleSource) (n : Nat) (e : FieldError),
      e ∈ selfRefCMLoop bn tk n srcs → ∃ j nm, e = selfRefCMFault j nm tk := by
  intro srcs
  induction srcs with
  | nil =>
    intro n e h
    simp [selfRefCMLoop] at h
  | cons hd tl ih =>
    intro n e h
    simp only [selfRefCMLoop] at h
    rcases List.mem_append.mp h with h | h
    · cases hcm : hd.configMap with
      | none =>
        simp only [hcm] at h
        simp at h
      | some cm =>
        simp only [hcm] at h
        by_cases hc : cm.name = bn ∧ cm.key = tk
        · rw [if_pos hc] at h
          simp at h
          exact ⟨n, cm.name, by rw [h, hc.2]⟩
        · rw [if_neg hc] at h
          simp at h
    · exact ih (n + 1) e h

/-- Every fault of the secret self-reference loop is a secret self-reference
fault carrying the target key. -/
theorem selfRefSecretLoop_shape (bn tk : String) :
    ∀ (srcs : List BundleSource) (n : Nat) (e : FieldError),
      e ∈ selfRefSecretLoop bn tk n srcs →
      ∃ j nm, e = selfRefSecretFault j nm tk := by
  intro srcs
  induction srcs with
  | nil =>
    intro n e h
    simp [selfRefSecretLoop] at h
  | cons hd tl ih =>
    intro n e h
    simp only [selfRefSecretLoop] at h
    rcases List.mem_append.mp h with h | h
    · cases hsec : hd.secret with
      | none =>
        simp only [hsec] at h
        simp at h
      | some sec =>
        simp only [hsec] at h
        by_cases hc : sec.name = bn ∧ sec.key = tk
        · rw [if_pos hc] at h
          simp at h
          exact ⟨n, sec.name, by rw [h, hc.2]⟩
        · rw [if_neg hc] at h
          simp at h
    · exact ih (n + 1) e h

/-- Every fault of the per-source selector loop has a numeric index as the
third component of its path. -/
theorem sourcesSelectorLoop_shape (ext : ExtValidator) :
    ∀ (srcs : List BundleSource) (n : Nat) (e : FieldError),
      e ∈ sourcesSelectorLoop ext n srcs →
      ∃ k, e.path.get? 2 = some (PathStep.index k) := by
  intro srcs
  induction srcs with
  | nil =>
    intro n e h
    simp [sourcesSelectorLoop] at h
  | cons hd tl ih =>
    intro n e h
    simp only [sourcesSelectorLoop] at h
    rcases List.mem_append.mp h with h | h
    · simp only [sourceSelectorFaults] at h
      rcases List.mem_append.mp h with h | h
      · cases hcm : hd.configMap with
        | none =>
          simp only [hcm] at h
          simp at h
        | some cm =>
          simp only [hcm, prependPath, List.mem_map] at h
          rcases h with ⟨a, -, rfl⟩
          exact ⟨n, rfl⟩
      · cases hsec : hd.secret with
        | none =>
          simp only [hsec] at h
          simp at h
        | some sec =>
          simp only [hsec, prependPath, List.mem_map] at h
          rcases h with ⟨a, -, rfl⟩
          exact ⟨n, rfl⟩
    · exact ih (n + 1) e h

/-- Every namespace-selector fault has "target" as the second component of
its path. -/
theorem nsSelectorFaults_shape (ext : ExtValidator) (b : Bundle)
    (e : FieldError) (h : e ∈ nsSelectorFaults ext b) :
    e.path.get? 1 = some (PathStep.child "target") := by
  simp only [nsSelectorFaults, prependPath, List.mem_map] at h
  rcases h with ⟨a, -, rfl⟩
  rfl

/-- Two equal configMap self-reference faults carry the same key. -/
theorem selfRefCMFault_key_eq {i j : Nat} {nm nm' k k' : String}
    (h : selfRefCMFault i nm k = selfRefCMFault j nm' k') : k = k' := by
  have h5 : (some (PathStep.child k) : Option PathStep) =
      some (PathStep.child k') :=
    congrArg (fun e : FieldError => e.path.get? 5) h
  exact PathStep.child.inj (Option.some.inj h5)

/-- Two equal secret self-reference faults carry the same key. -/
theorem selfRefSecretFault_key_eq {i j : Nat} {nm nm' k k' : String}
    (h : selfRefSecretFault i nm k = selfRefSecretFault j nm' k') : k = k' := by
  have h5 : (some (PathStep.child k) : Option PathStep) =
      some (PathStep.child k') :=
    congrArg (fun e : FieldError => e.path.get? 5) h
  exact PathStep.child.inj (Option.some.inj h5)

/-- Claim C2: a source at index `i` that references a configMap (resp.
secret) whose name is the bundle's own name and whose key equals the target
configMap (resp. secret) key makes `validate` emit the "cannot define the
same source as target" fault at that source's indexed path; the rule holds
independently for the configMap and secret pairs, and when the source's key
differs from the target's key the corresponding fault is not emitted. -/
theorem same_source_as_target (ext : ExtValidator) (b : Bundle) (i : Nat)
    (s : BundleSource) (hs : b.spec.sources.get? i = some s) :
    (∀ tgt cm, b.spec.target.configMap = some tgt → s.configMap = some cm →
      cm.name = b.name → cm.key = tgt.key →
      selfRefCMFault i cm.name cm.key ∈ (validate ext b).faults) ∧
    (∀ tgt cm, b.spec.target.configMap = some tgt → s.configMap = some cm →
      cm.key ≠ tgt.key →
      selfRefCMFault i cm.name cm.key ∉ (validate ext b).faults) ∧
    (∀ tgt sec, b.spec.target.secret = some tgt → s.secret = some sec →
      sec.name = b.name → sec.key = tgt.key →
      selfRefSecretFault i sec.name sec.key ∈ (validate ext b).faults) ∧
    (∀ tgt sec, b.spec.target.secret = some tgt → s.secret = some sec →
      sec.key ≠ tgt.key →
      selfRefSecretFault i sec.name sec.key ∉ (validate ext b).faults) := by
  have hfaults : (validate ext b).faults =
      sourcesSelectorLoop ext 0 b.spec.sources ++ selfRefCMFaults b ++
        selfRefSecretFaults b ++ nsSelectorFaults ext b := rfl
  refine ⟨?_, ?_, ?_, ?_⟩
  · intro tgt cm htgt hcm hname hkey
    have hmem : selfRefCMFault (0 + i) cm.name cm.key ∈
        selfRefCMLoop b.name tgt.key 0 b.spec.sources :=
      selfRefCMLoop_mem_of b.name tgt.key b.spec.sources 0 i s cm hs hcm
        hname hkey
    rw [Nat.zero_add] at hmem
    rw [hfaults]
    refine List.mem_append_left _
      (List.mem_append_left _ (List.mem_append_right _ ?_))
    simp only [selfRefCMFaults, htgt]
    exact hmem
  · intro tgt cm htgt hcm hkey hmem
    rw [hfaults] at hmem
    rcases List.mem_append.mp hmem with h | h
    · rcases List.mem_append.mp h with h | h
      · rcases List.mem_append.mp h with h | h
        · obtain ⟨k0, hk0⟩ := sourcesSelectorLoop_shape ext b.spec.sources 0 _ h
          have hcontr : (some (PathStep.child (bracket i)) : Option PathStep) =
              some (PathStep.index k0) := hk0
          simp at hcontr
        · simp only [selfRefCMFaults, htgt] at h
          obtain ⟨j, nm, hje⟩ :=
            selfRefCMLoop_shape b.name tgt.key b.spec.sources 0 _ h
          exact hkey (selfRefCMFault_key_eq hje)
      · cases hsec : b.spec.target.secret with
        | none =>
          simp only [selfRefSecretFaults, hsec] at h
          simp at h
        | some tsec =>
          simp only [selfRefSecretFaults, hsec] at h
          obtain ⟨j, nm, hje⟩ :=
            selfRefSecretLoop_shape b.name tsec.key b.spec.sources 0 _ h
          have hcontr : (some (PathStep.child "configMap") : Option PathStep) =
              some (PathStep.child "secret") :=
            congrArg (fun e : FieldError => e.path.get? 3) hje
          simp at hcontr
    · have h1 := nsSelectorFaults_shape ext b _ h
      have hcontr : (some (PathStep.child "sources") : Option PathStep) =
          some (PathStep.child "target") := h1
      simp at hcontr
  · intro tgt sec htgt hsec hname hkey
    have hmem : selfRefSecretFault (0 + i) sec.name sec.key ∈
        selfRefSecretLoop b.name tgt.key 0 b.spec.sources :=
      selfRefSecretLoop_mem_of b.name tgt.key b.spec.sources 0 i s sec hs hsec
        hname hkey
    rw [Nat.zero_add] at hmem
    rw [hfaults]
    refine List.mem_append_left _ (List.mem_append_right _ ?_)
    simp only [selfRefSecretFaults, htgt]
    exact hmem
  · intro tgt sec htgt hsec hkey hmem
    rw [hfaults] at hmem
    rcases List.mem_append.mp hmem with h | h
    · rcases List.mem_append.mp h with h | h
      · rcases List.mem_append.mp h with h | h
        · obtain ⟨k0, hk0⟩ := sourcesSelectorLoop_shape ext b.spec.sources 0 _ h
          have hcontr : (some (PathStep.child (bracket i)) : Option PathStep) =
              some (PathStep.index k0) := hk0
          simp at hcontr
        · cases hc : b.spec.target.configMap with
          | none =>
            simp only [selfRefCMFaults, hc] at h
            simp at h
          | some tcm =>
            simp only [selfRefCMFaults, hc] at h
            obtain ⟨j, nm, hje⟩ :=
              selfRefCMLoop_shape b.name tcm.key b.spec.sources 0 _ h
            have hcontr : (some (PathStep.child "secret") : Option PathStep) =
                some (PathStep.child "configMap") :=
              congrArg (fun e : FieldError => e.path.get? 3) hje
            simp at hcontr
      · simp only [selfRefSecretFaults, htgt] at h
        obtain ⟨j, nm, hje⟩ :=
          selfRefSecretLoop_shape b.name tgt.key b.spec.sources 0 _ h
        exact hkey (selfRefSecretFault_key_eq hje)
    · have h1 := nsSelectorFaults_shape ext b _ h
      have hcontr : (some (PathStep.child "sources") : Option PathStep) =
          some (PathStep.child "target") := h1
      simp at hcontr

/-- Witness for C2: the concrete self-referential bundle receives the
configMap self-reference fault at source index 0. -/
theorem same_source_as_target_witness :
    selfRefCMFault 0 "bundle-c" "ca.crt" ∈ (validate extNil selfRefBundle).faults :=
  (same_source_as_target extNil selfRefBundle 0
      ⟨some ⟨"bundle-c", none, "ca.crt", false⟩, none, none, none⟩ rfl).1
    ⟨"ca.crt"⟩ ⟨"bundle-c", none, "ca.crt", false⟩ rfl rfl rfl rfl

end TrustManager
